import Mathlib

/-!
Shallow embedding of the dora dataflow platform's message catalog
(libraries/core/src/daemon_messages.rs, libraries/core/src/topics.rs),
of the coordinator's dataflow-spawning logic
(binaries/coordinator/src/run/mod.rs), and of the Drop-Token Ledger
described in the specification (its daemon-side implementation is not
among the staged files), together with theorems settling the spec claims.
-/

namespace Dora

/-- A 128-bit UUID (the uuid crate's Uuid), modelled as its value as a
natural number (overwritten fields are handled explicitly where they
matter, in uuidNewV4). -/
structure Uuid where
  val : Nat
deriving DecidableEq, Repr

/-- NodeId (config.rs is not under the staged sources): a node identifier,
a plain string wrapper there. -/
abbrev NodeId := String

/-- DataId: an output/input identifier, a plain string wrapper. -/
abbrev DataId := String

/-- OperatorId: an operator identifier, a plain string wrapper. -/
abbrev OperatorId := String

/-- Metadata comes from the external dora_message crate; none of the
embedded functions inspect it, so it is modelled as an opaque unit. -/
abbrev Metadata := Unit

/-- SharedMemoryId from daemon_messages.rs: a type alias for String. -/
abbrev SharedMemoryId := String

/-- DataflowId from daemon_messages.rs: a type alias for Uuid. -/
abbrev DataflowId := Uuid

/-- Byte: one u8 value. -/
abbrev Byte := Fin 256

/-- DropToken from daemon_messages.rs: a newtype around a Uuid. -/
structure DropToken where
  uuid : Uuid
deriving DecidableEq, Repr

/-- The function Uuid::new_v4 of the external uuid crate, as documented:
fill the 128 bits with random data r, then overwrite the version field
(bits 76-79, the high nibble of byte 6) with 0100 (version 4) and the top
two bits of byte 8 (bits 62-63) with 10 (the RFC 4122 variant).
Randomness is modelled by passing the 128 random bits explicitly. -/
def uuidNewV4 (r : Nat) : Uuid :=
  ⟨(r / 2 ^ 80 % 2 ^ 48) * 2 ^ 80 + 4 * 2 ^ 76 +
    (r / 2 ^ 64 % 2 ^ 12) * 2 ^ 64 + 2 * 2 ^ 62 + r % 2 ^ 62⟩

/-- The UUID version field: the high nibble of byte 6 (bits 76-79). -/
def Uuid.version (u : Uuid) : Nat := u.val / 2 ^ 76 % 2 ^ 4

/-- The top two bits of byte 8 (bits 62-63), 10 for RFC 4122 UUIDs. -/
def Uuid.variantBits (u : Uuid) : Nat := u.val / 2 ^ 62 % 2 ^ 2

/-- The 122 random bits of the input that survive into a version-4 UUID
(everything outside the overwritten version and variant fields). -/
def randomPayload (r : Nat) : Nat × Nat × Nat :=
  (r / 2 ^ 80 % 2 ^ 48, r / 2 ^ 64 % 2 ^ 12, r % 2 ^ 62)

/-- DropToken::generate from daemon_messages.rs: Self(Uuid::new_v4()).
The RNG draw is modelled by the explicit 128 random bits r. -/
def DropToken.generate (r : Nat) : DropToken := ⟨uuidNewV4 r⟩

/-- Data from daemon_messages.rs: an outbound message payload, either an
inline byte vector or a reference to a shared-memory region. -/
inductive Data where
  | Vec (bytes : List Byte)
  | SharedMemory (shared_memory_id : String) (len : Nat) (drop_token : DropToken)
deriving DecidableEq, Repr

/-- Data::drop_token from daemon_messages.rs. -/
def Data.drop_token : Data → Option DropToken
  | Data.Vec _ => none
  | Data.SharedMemory _ _ t => some t

/-- SharedMemoryInput from daemon_messages.rs. -/
structure SharedMemoryInput where
  shared_memory_id : SharedMemoryId
  len : Nat
  drop_token : DropToken
deriving DecidableEq, Repr

/-- InputData from daemon_messages.rs. -/
inductive InputData where
  | SharedMemory (data : SharedMemoryInput)
  | Vec (bytes : List Byte)
deriving DecidableEq, Repr

/-- InputData::drop_token from daemon_messages.rs. -/
def InputData.drop_token : InputData → Option DropToken
  | InputData.SharedMemory d => some d.drop_token
  | InputData.Vec _ => none

/-- DaemonRequest from daemon_messages.rs: the closed set of requests a
node sends to its daemon. -/
inductive DaemonRequest where
  | Register (dataflow_id : DataflowId) (node_id : NodeId) (dora_version : String)
  | Subscribe
  | SendMessage (output_id : DataId) (metadata : Metadata) (data : Option Data)
  | CloseOutputs (outputs : List DataId)
  | OutputsDone
  | NextEvent (drop_tokens : List DropToken)
  | ReportDropTokens (drop_tokens : List DropToken)
  | SubscribeDrop
  | NextFinishedDropTokens
  | EventStreamDropped
deriving DecidableEq, Repr

/-- DaemonRequest::expects_tcp_reply from daemon_messages.rs: SendMessage
and ReportDropTokens are fire-and-forget, every other variant receives a
synchronous reply. -/
def DaemonRequest.expects_tcp_reply : DaemonRequest → Bool
  | DaemonRequest.SendMessage _ _ _ => false
  | DaemonRequest.ReportDropTokens _ => false
  | DaemonRequest.Register _ _ _ => true
  | DaemonRequest.Subscribe => true
  | DaemonRequest.CloseOutputs _ => true
  | DaemonRequest.OutputsDone => true
  | DaemonRequest.NextEvent _ => true
  | DaemonRequest.SubscribeDrop => true
  | DaemonRequest.NextFinishedDropTokens => true
  | DaemonRequest.EventStreamDropped => true

/-- DaemonCommunicationConfig from daemon_messages.rs: the per-dataflow
transport choice between daemon and node. -/
inductive DaemonCommunicationConfig where
  | Tcp
  | Shmem
deriving DecidableEq, Repr

/-- The Default impl of DaemonCommunicationConfig (daemon_messages.rs):
Self::Tcp. -/
instance DaemonCommunicationConfig.instInhabited : Inhabited DaemonCommunicationConfig :=
  ⟨DaemonCommunicationConfig.Tcp⟩

/-- Duration (std::time::Duration), modelled as a count of nanoseconds. -/
abbrev Duration := Nat

namespace Topics

/-- DataflowId from topics.rs: a uuid paired with an optional
human-readable name. -/
structure DataflowId where
  uuid : Uuid
  name : Option String
deriving DecidableEq, Repr

end Topics

/-- ControlRequest from topics.rs: the control-client requests accepted by
the coordinator (PathBuf modelled as String). -/
inductive ControlRequest where
  | Start (dataflow_path : String) (name : Option String)
  | Stop (dataflow_uuid : Uuid) (grace_period : Option Duration)
  | StopByName (name : String) (grace_period : Option Duration)
  | Destroy
  | List
  | DaemonConnected
deriving DecidableEq, Repr

/-- StartDataflowResult from topics.rs. -/
inductive StartDataflowResult where
  | Ok (uuid : Uuid)
  | Error (msg : String)
deriving DecidableEq, Repr

/-- StopDataflowResult from topics.rs. -/
inductive StopDataflowResult where
  | Ok
  | Error (msg : String)
deriving DecidableEq, Repr

/-- ListDataflowResult from topics.rs. -/
inductive ListDataflowResult where
  | Ok (dataflows : List Topics.DataflowId)
  | Error (msg : String)
deriving DecidableEq, Repr

/-- Follows the spec's words (section 4.1): whether a ControlRequest is one
of the five request kinds the spec lists, Start, Stop, StopByName, Destroy
or List. Stated for comparison with the source's ControlRequest enum. -/
def specListedControlRequest : ControlRequest → Bool
  | ControlRequest.Start _ _ => true
  | ControlRequest.Stop _ _ => true
  | ControlRequest.StopByName _ _ => true
  | ControlRequest.Destroy => true
  | ControlRequest.List => true
  | ControlRequest.DaemonConnected => false

namespace Coordinator

/-- CoreNodeKind (descriptor.rs is not among the staged files): the kind
of a resolved node, a custom process or a runtime-hosted operator set.
The payloads are opaque string stand-ins; spawn_dataflow only matches on
the constructor and forwards the custom-node payload unchanged. -/
inductive CoreNodeKind where
  | Runtime (cfg : String)
  | Custom (node : String)
deriving DecidableEq, Repr

/-- ResolvedNode (descriptor.rs, not staged): a node after alias
resolution, here reduced to the two fields spawn_dataflow reads. -/
structure ResolvedNode where
  id : NodeId
  kind : CoreNodeKind
deriving DecidableEq, Repr

/-- SpawnNodeParams as constructed in coordinator run/mod.rs (the staged
daemon_messages.rs is from a different revision and lacks it; the fields
are taken from the construction site in spawn_dataflow). -/
structure SpawnNodeParams where
  node_id : NodeId
  node : String
  working_dir : String
deriving DecidableEq, Repr

/-- SpawnDataflowNodes as constructed in coordinator run/mod.rs: the fresh
dataflow id plus the custom-node map (BTreeMap modelled as an association
list; the claims never inspect its ordering). -/
structure SpawnDataflowNodes where
  dataflow_id : Uuid
  nodes : List (NodeId × SpawnNodeParams)
deriving DecidableEq, Repr

/-- DaemonCoordinatorEvent as sent by coordinator run/mod.rs; only the
Spawn variant is constructed by the embedded code, so only it is
modelled (serde_json serialization is abstracted away: the message is
the value itself). -/
inductive DaemonCoordinatorEvent where
  | Spawn (cmd : SpawnDataflowNodes)
deriving DecidableEq, Repr

/-- The dataflow id carried by a coordinator-to-daemon message. -/
def DaemonCoordinatorEvent.dataflowId : DaemonCoordinatorEvent → Uuid
  | DaemonCoordinatorEvent.Spawn cmd => cmd.dataflow_id

/-- SpawnedDataflow from run/mod.rs: the uuid plus the set of join handles
of spawned tasks (each handle resolving to the task's result). -/
structure SpawnedDataflow where
  uuid : Uuid
  tasks : List (Except String Unit)
deriving Repr

/-- Outcome of spawn_dataflow, paired with the messages written to daemon
connections: ok models an Ok(SpawnedDataflow) return, error an eyre error
return (bail/wrap_err), and panicked reaching the todo macro in the node
loop, which aborts instead of returning. -/
inductive SpawnOutcome where
  | ok (dataflow : SpawnedDataflow) (sent : List (String × DaemonCoordinatorEvent))
  | error (msg : String) (sent : List (String × DaemonCoordinatorEvent))
  | panicked (msg : String) (sent : List (String × DaemonCoordinatorEvent))
deriving Repr

/-- The messages a spawn_dataflow call wrote to daemon connections. -/
def SpawnOutcome.sent : SpawnOutcome → List (String × DaemonCoordinatorEvent)
  | SpawnOutcome.ok _ s => s
  | SpawnOutcome.error _ s => s
  | SpawnOutcome.panicked _ s => s

/-- Whether the resolved node list contains a runtime-kind node: the
condition of the which-lookup guard in spawn_dataflow. -/
def hasRuntimeNode (nodes : List ResolvedNode) : Bool :=
  nodes.any fun n =>
    match n.kind with
    | CoreNodeKind.Runtime _ => true
    | CoreNodeKind.Custom _ => false

/-- The for-loop of spawn_dataflow building the custom_nodes map: a
runtime-kind node hits todo and panics (none); a custom node is inserted
under its id with the shared working directory. -/
def collectCustomNodes (working_dir : String) :
    List ResolvedNode → Option (List (NodeId × SpawnNodeParams))
  | [] => some []
  | n :: rest =>
    match n.kind with
    | CoreNodeKind.Runtime _ => none
    | CoreNodeKind.Custom c =>
      (collectCustomNodes working_dir rest).map
        fun m => (n.id, SpawnNodeParams.mk n.id c working_dir) :: m

/-- The body of coordinator run/mod.rs spawn_dataflow, starting after the
descriptor I/O: nodes is descriptor.resolve_aliases(), uuid the fresh
Uuid::new_v4() value, working_dir the canonicalized parent directory,
whichRuntime the result of the which lookup for the runtime binary (only
consulted when a runtime-kind node is present), and daemonConnections the
key set of the daemon_connections map. A successful tcp_send is modelled
by recording the (key, message) pair on the sent list; the returned task
set is empty, exactly as in the source (FuturesUnordered::new(), marked
TODO there). -/
def spawn_dataflow (nodes : List ResolvedNode) (uuid : Uuid) (working_dir : String)
    (whichRuntime : Option String) (daemonConnections : List String) : SpawnOutcome :=
  if hasRuntimeNode nodes && whichRuntime.isNone then
    SpawnOutcome.error "There is no runtime at the given path, or it is not a file" []
  else
    match collectCustomNodes working_dir nodes with
    | none => SpawnOutcome.panicked "not yet implemented" []
    | some custom_nodes =>
      if daemonConnections.contains "" then
        SpawnOutcome.ok (SpawnedDataflow.mk uuid [])
          [("", DaemonCoordinatorEvent.Spawn (SpawnDataflowNodes.mk uuid custom_nodes))]
      else
        SpawnOutcome.error "no daemon connection" []

/-- await_tasks from run/mod.rs: joins the task set in order, failing on
the first task error. -/
def await_tasks : List (Except String Unit) → Except String Unit
  | [] => Except.ok ()
  | Except.ok () :: rest => await_tasks rest
  | Except.error e :: _ => Except.error e

/-- run_dataflow from run/mod.rs: spawn the dataflow, then await its
(empty) task set; a panic in spawn_dataflow propagates. -/
def run_dataflow (nodes : List ResolvedNode) (uuid : Uuid) (working_dir : String)
    (whichRuntime : Option String) (daemonConnections : List String) :
    SpawnOutcome :=
  match spawn_dataflow nodes uuid working_dir whichRuntime daemonConnections with
  | SpawnOutcome.ok d sent =>
    match await_tasks d.tasks with
    | Except.ok () => SpawnOutcome.ok d sent
    | Except.error e => SpawnOutcome.error e sent
  | other => other

end Coordinator

namespace Ledger

/-- Region identifiers, opaque ids handed out by the external fresh-id
generator (spec section 6). -/
abbrev RegionId := Nat

/-- Ledger node identifiers (spec: the consumers owing acknowledgments). -/
abbrev LNodeId := Nat

/-- Modelled from the spec: the per-region lifecycle state of the
Drop-Token Ledger, Allocated (region exists, not yet delivered) or
InFlight with the pending set of consumers that still owe an
acknowledgment; a released region is removed from the ledger (id
invalidated), so Released has no explicit state. -/
inductive RegionState where
  | allocated (size : Nat)
  | inFlight (pending : List LNodeId)
deriving DecidableEq, Repr

/-- Modelled from the spec: the Drop-Token Ledger, a per-daemon table
tracking outstanding shared-memory regions, as an association list. -/
abbrev LedgerT := List (RegionId × RegionState)

/-- Modelled from the spec: the errors ledger operations report;
UnknownRegion is what every operation on a released or never-allocated
region id fails with. -/
inductive LedgerError where
  | UnknownRegion
  | AlreadyPublished
deriving DecidableEq, Repr

/-- Look up a region id in the ledger table. -/
def findRegion : LedgerT → RegionId → Option RegionState
  | [], _ => none
  | (i, s) :: rest, id => if i = id then some s else findRegion rest id

/-- Replace the state stored under a region id. -/
def setRegion (l : LedgerT) (id : RegionId) (s : RegionState) : LedgerT :=
  l.map fun e => if e.1 = id then (id, s) else e

/-- Remove a region id from the ledger (the id becomes invalid). -/
def removeRegion (l : LedgerT) (id : RegionId) : LedgerT :=
  l.filter fun e => decide (e.1 ≠ id)

/-- Modelled from the spec: allocate(size) reserves a new region; the
fresh region id comes from the external unique-id generator (spec
section 6) and is passed in explicitly. -/
def allocate (l : LedgerT) (id : RegionId) (size : Nat) : LedgerT :=
  (id, RegionState.allocated size) :: l

/-- Modelled from the spec: publish(region_id, consumer_node_ids) fixes
the set of expected acknowledgers. Publishing an unknown (released or
never-allocated) id fails with UnknownRegion; re-publishing an in-flight
region is rejected. -/
def publish (l : LedgerT) (id : RegionId) (consumers : List LNodeId) :
    Except LedgerError LedgerT :=
  match findRegion l id with
  | none => Except.error LedgerError.UnknownRegion
  | some (RegionState.allocated _) =>
    Except.ok (setRegion l id (RegionState.inFlight consumers))
  | some (RegionState.inFlight _) => Except.error LedgerError.AlreadyPublished

/-- Modelled from the spec: acknowledge(node_id, drop_token) removes the
node from the pending set (a second acknowledge of the same pair is a
no-op); when the pending set becomes empty the region is released, its
memory freed and its id invalidated. Acknowledging a released or unknown
region id fails with UnknownRegion (before publish no token exists, so
that case is likewise unknown). Returns the new ledger with the list of
regions this call released. -/
def acknowledge (l : LedgerT) (node : LNodeId) (id : RegionId) :
    Except LedgerError (LedgerT × List RegionId) :=
  match findRegion l id with
  | none => Except.error LedgerError.UnknownRegion
  | some (RegionState.allocated _) => Except.error LedgerError.UnknownRegion
  | some (RegionState.inFlight pending) =>
    let pending' := pending.filter fun m => decide (m ≠ node)
    if pending' = [] then Except.ok (removeRegion l id, [id])
    else Except.ok (setRegion l id (RegionState.inFlight pending'), [])

/-- Modelled from the spec: force_release(node_id) treats all of the
node's outstanding tokens as acknowledged: every pending set loses the
node, and every region whose pending set empties is released. -/
def force_release (l : LedgerT) (node : LNodeId) : LedgerT × List RegionId :=
  match l with
  | [] => ([], [])
  | (id, RegionState.allocated sz) :: rest =>
    let res := force_release rest node
    ((id, RegionState.allocated sz) :: res.1, res.2)
  | (id, RegionState.inFlight pending) :: rest =>
    let pending' := pending.filter fun m => decide (m ≠ node)
    let res := force_release rest node
    if pending' = [] then (res.1, id :: res.2)
    else ((id, RegionState.inFlight pending') :: res.1, res.2)

/-- An operation of the acknowledgment phase that follows publish: a
ReportDropTokens acknowledgment or a session-teardown force_release. -/
inductive AckOp where
  | ack (node : LNodeId) (id : RegionId)
  | forceRelease (node : LNodeId)
deriving DecidableEq, Repr

/-- One acknowledgment-phase step; a failing operation leaves the ledger
unchanged (its error goes back to the caller). -/
def stepAck (l : LedgerT) (op : AckOp) : LedgerT × List RegionId :=
  match op with
  | AckOp.ack n id =>
    match acknowledge l n id with
    | Except.error _ => (l, [])
    | Except.ok res => res
  | AckOp.forceRelease n => force_release l n

/-- Run a sequence of acknowledgment-phase operations, collecting every
region released along the way. -/
def runAcks (l : LedgerT) : List AckOp → LedgerT × List RegionId
  | [] => (l, [])
  | op :: ops =>
    let res := stepAck l op
    let rest := runAcks res.1 ops
    (rest.1, res.2 ++ rest.2)

/-- The consumers of region id that a sequence of operations covers: the
nodes that acknowledged the region's token plus the nodes whose sessions
were force-released. -/
def coveredNodes (id : RegionId) : List AckOp → List LNodeId
  | [] => []
  | AckOp.ack n rid :: ops =>
    (if rid = id then [n] else []) ++ coveredNodes id ops
  | AckOp.forceRelease n :: ops => n :: coveredNodes id ops

end Ledger

/-! Theorems settling the claims. -/

/-- C3: exactly the two fire-and-forget requests SendMessage and
ReportDropTokens expect no synchronous reply, while every other request
variant returns a reply on the same transport: expects_tcp_reply is false
for SendMessage and ReportDropTokens, true for all eight other variants,
and false only for those two. -/
theorem expects_tcp_reply_fire_and_forget :
    (∀ o m d, (DaemonRequest.SendMessage o m d).expects_tcp_reply = false) ∧
    (∀ ts, (DaemonRequest.ReportDropTokens ts).expects_tcp_reply = false) ∧
    (∀ df n v, (DaemonRequest.Register df n v).expects_tcp_reply = true) ∧
    DaemonRequest.Subscribe.expects_tcp_reply = true ∧
    (∀ os, (DaemonRequest.CloseOutputs os).expects_tcp_reply = true) ∧
    DaemonRequest.OutputsDone.expects_tcp_reply = true ∧
    (∀ ts, (DaemonRequest.NextEvent ts).expects_tcp_reply = true) ∧
    DaemonRequest.SubscribeDrop.expects_tcp_reply = true ∧
    DaemonRequest.NextFinishedDropTokens.expects_tcp_reply = true ∧
    DaemonRequest.EventStreamDropped.expects_tcp_reply = true ∧
    (∀ r : DaemonRequest, r.expects_tcp_reply = false →
      (∃ o m d, r = DaemonRequest.SendMessage o m d) ∨
      (∃ ts, r = DaemonRequest.ReportDropTokens ts)) := by
  refine ⟨fun _ _ _ => rfl, fun _ => rfl, fun _ _ _ => rfl, rfl, fun _ => rfl,
    rfl, fun _ => rfl, rfl, rfl, rfl, fun r h => ?_⟩
  cases r <;> simp_all [DaemonRequest.expects_tcp_reply]

/-- C4: the inline-Vec form and the shared-memory form of a payload are
mutually exclusive and the receiver can branch on which variant arrived:
Data::drop_token (and InputData::drop_token) returns none exactly on the
Vec variant and some token exactly on the SharedMemory variant. -/
theorem drop_token_discriminates_payload :
    (∀ d : Data, d.drop_token = none ↔ ∃ v, d = Data.Vec v) ∧
    (∀ (d : Data) (t : DropToken), d.drop_token = some t ↔
      ∃ sid len, d = Data.SharedMemory sid len t) ∧
    (∀ i : InputData, i.drop_token = none ↔ ∃ v, i = InputData.Vec v) ∧
    (∀ (i : InputData) (t : DropToken), i.drop_token = some t ↔
      ∃ s, i = InputData.SharedMemory s ∧ s.drop_token = t) := by
  refine ⟨fun d => ?_, fun d t => ?_, fun i => ?_, fun i t => ?_⟩
  · cases d <;> simp [Data.drop_token]
  · cases d <;> simp [Data.drop_token]
  · cases i <;> simp [InputData.drop_token]
  · cases i <;> simp [InputData.drop_token]

/-- C9: the default daemon-node communication transport is Tcp: the
Default impl of DaemonCommunicationConfig returns Tcp, which is a
different variant from Shmem. -/
theorem daemon_communication_default_is_tcp :
    (default : DaemonCommunicationConfig) = DaemonCommunicationConfig.Tcp ∧
    DaemonCommunicationConfig.Tcp ≠ DaemonCommunicationConfig.Shmem :=
  ⟨rfl, by decide⟩

/-- C7 counterexample: the control request set is not exactly the five
kinds the spec lists: ControlRequest has a sixth variant, DaemonConnected,
outside the spec's set. -/
theorem control_request_outside_spec_list :
    specListedControlRequest ControlRequest.DaemonConnected = false := rfl

/-- C7 amended: the control-protocol layer is a closed tagged union whose
request set is exactly Start, Stop, StopByName, Destroy, List and
DaemonConnected, and whose reply kinds are exactly the Ok and Error forms
of StartDataflowResult, StopDataflowResult and ListDataflowResult. -/
theorem control_protocol_closed :
    (∀ r : ControlRequest,
      (∃ p n, r = ControlRequest.Start p n) ∨
      (∃ u g, r = ControlRequest.Stop u g) ∨
      (∃ n g, r = ControlRequest.StopByName n g) ∨
      r = ControlRequest.Destroy ∨ r = ControlRequest.List ∨
      r = ControlRequest.DaemonConnected) ∧
    (∀ s : StartDataflowResult,
      (∃ u, s = StartDataflowResult.Ok u) ∨ ∃ e, s = StartDataflowResult.Error e) ∧
    (∀ s : StopDataflowResult,
      s = StopDataflowResult.Ok ∨ ∃ e, s = StopDataflowResult.Error e) ∧
    (∀ s : ListDataflowResult,
      (∃ d, s = ListDataflowResult.Ok d) ∨ ∃ e, s = ListDataflowResult.Error e) := by
  refine ⟨fun r => ?_, fun s => ?_, fun s => ?_, fun s => ?_⟩ <;>
    first
      | (cases r <;> simp)
      | (cases s <;> simp)

/-- C8: DropToken::generate mints a version-4 UUID from 128 fresh random
bits: the version field is always 4, the variant bits are always 10, and
two generate calls whose random draws differ anywhere outside the six
overwritten bits yield distinct tokens (distinctness up to random
collision of the 128-bit draw). -/
theorem drop_token_generate_v4_distinct :
    (∀ r, (DropToken.generate r).uuid.version = 4) ∧
    (∀ r, (DropToken.generate r).uuid.variantBits = 2) ∧
    (∀ r₁ r₂, randomPayload r₁ ≠ randomPayload r₂ →
      DropToken.generate r₁ ≠ DropToken.generate r₂) := by
  refine ⟨fun r => ?_, fun r => ?_, fun r₁ r₂ hne heq => ?_⟩
  · show (uuidNewV4 r).val / 2 ^ 76 % 2 ^ 4 = 4
    show ((r / 2 ^ 80 % 2 ^ 48) * 2 ^ 80 + 4 * 2 ^ 76 +
      (r / 2 ^ 64 % 2 ^ 12) * 2 ^ 64 + 2 * 2 ^ 62 + r % 2 ^ 62) / 2 ^ 76 % 2 ^ 4 = 4
    omega
  · show (uuidNewV4 r).val / 2 ^ 62 % 2 ^ 2 = 2
    show ((r / 2 ^ 80 % 2 ^ 48) * 2 ^ 80 + 4 * 2 ^ 76 +
      (r / 2 ^ 64 % 2 ^ 12) * 2 ^ 64 + 2 * 2 ^ 62 + r % 2 ^ 62) / 2 ^ 62 % 2 ^ 2 = 2
    omega
  · apply hne
    have hv : (uuidNewV4 r₁).val = (uuidNewV4 r₂).val := by
      have h := congrArg (fun t : DropToken => t.uuid.val) heq
      simpa [DropToken.generate] using h
    simp only [uuidNewV4] at hv
    simp only [randomPayload, Prod.mk.injEq]
    refine ⟨?_, ?_, ?_⟩ <;> omega

/-- When the resolved node list has no runtime-kind node, the node loop of
spawn_dataflow never reaches the todo panic. -/
theorem collectCustomNodes_isSome_of_no_runtime (wd : String)
    (nodes : List Coordinator.ResolvedNode)
    (h : Coordinator.hasRuntimeNode nodes = false) :
    (Coordinator.collectCustomNodes wd nodes).isSome = true := by
  induction nodes with
  | nil => rfl
  | cons n rest ih =>
    rw [Coordinator.hasRuntimeNode, List.any_cons, Bool.or_eq_false_iff] at h
    cases hk : n.kind with
    | Runtime cfg => rw [hk] at h; simp at h
    | Custom c =>
      have hrest := ih (by rw [Coordinator.hasRuntimeNode]; exact h.2)
      rw [Coordinator.collectCustomNodes, hk]
      cases hc : Coordinator.collectCustomNodes wd rest with
      | none => rw [hc] at hrest; simp at hrest
      | some m => simp [hc]

/-- C2 (failing input): the coordinator reports a successful start without
consulting any SpawnResult: for a well-formed single-node dataflow,
run_dataflow (and spawn_dataflow inside it) returns Ok with an empty task
set immediately after recording the Spawn send, with no daemon reply
among its inputs at all, so a daemon failure after the send can never
abort the start. -/
theorem spawn_reports_ok_without_spawn_result :
    Coordinator.run_dataflow
      [Coordinator.ResolvedNode.mk "node-a" (Coordinator.CoreNodeKind.Custom "node-a.yaml")]
      (Uuid.mk 7) "/wd" none [""] =
    Coordinator.SpawnOutcome.ok (Coordinator.SpawnedDataflow.mk (Uuid.mk 7) [])
      [("", Coordinator.DaemonCoordinatorEvent.Spawn
        (Coordinator.SpawnDataflowNodes.mk (Uuid.mk 7)
          [("node-a", Coordinator.SpawnNodeParams.mk "node-a" "node-a.yaml" "/wd")]))] := rfl

/-- C5 (failing input): a dataflow containing a runtime-kind node makes
spawn_dataflow hit the todo macro and panic with "not yet implemented"
instead of spawning an in-process runtime host, even when the runtime
binary was found. -/
theorem spawn_dataflow_panics_on_runtime_node :
    Coordinator.spawn_dataflow
      [Coordinator.ResolvedNode.mk "op-host" (Coordinator.CoreNodeKind.Runtime "operators")]
      (Uuid.mk 7) "/wd" (some "/usr/local/bin/dora-runtime") [""] =
    Coordinator.SpawnOutcome.panicked "not yet implemented" [] := rfl

/-- C6: a control-plane DataflowId consists of exactly a uuid and an
optional human-readable name, and the coordinator assigns the freshly
minted uuid at start time: a successful spawn_dataflow returns that uuid
and stamps the same uuid into every Spawn message it sends. -/
theorem dataflow_id_uuid_name_fresh :
    (∀ d : Topics.DataflowId, d = Topics.DataflowId.mk d.uuid d.name) ∧
    (∀ u₁ n₁ u₂ n₂, Topics.DataflowId.mk u₁ n₁ = Topics.DataflowId.mk u₂ n₂ ↔
      u₁ = u₂ ∧ n₁ = n₂) ∧
    (∀ nodes uuid wd wr conns d sent,
      Coordinator.spawn_dataflow nodes uuid wd wr conns =
        Coordinator.SpawnOutcome.ok d sent →
      d.uuid = uuid ∧ ∀ km ∈ sent, Coordinator.DaemonCoordinatorEvent.dataflowId km.2 = uuid) := by
  refine ⟨fun d => rfl, fun u₁ n₁ u₂ n₂ => by simp, ?_⟩
  intro nodes uuid wd wr conns d sent h
  rw [Coordinator.spawn_dataflow] at h
  split at h
  · exact absurd h (by simp)
  · split at h
    · exact absurd h (by simp)
    · split at h
      · rw [Coordinator.SpawnOutcome.ok.injEq] at h
        obtain ⟨hd, hs⟩ := h
        refine ⟨by rw [← hd], ?_⟩
        intro km hkm
        rw [← hs] at hkm
        simp at hkm
        rw [hkm]
        rfl
      · exact absurd h (by simp)

/-- C10 counterexample: a call of spawn_dataflow whose daemon_connections
map has no entry under the empty machine id does not return the error
"no daemon connection" when the node list contains a runtime-kind node:
it panics in the node loop before the connection lookup is reached. -/
theorem spawn_without_daemon_entry_can_panic :
    Coordinator.spawn_dataflow
      [Coordinator.ResolvedNode.mk "op-host" (Coordinator.CoreNodeKind.Runtime "operators")]
      (Uuid.mk 3) "/wd" (some "/opt/dora/bin/dora-runtime") [] =
    Coordinator.SpawnOutcome.panicked "not yet implemented" [] := rfl

/-- C10 amended: spawn_dataflow sends Spawn only to the daemon connection
registered under the empty machine-id key: every message it ever sends
goes to that key, and whenever the node list has no runtime-kind node
(so no earlier runtime-lookup failure or todo panic intervenes) and
daemon_connections has no entry under the empty key, it returns the error
"no daemon connection" having sent nothing. -/
theorem spawn_sends_only_to_empty_key_daemon :
    (∀ nodes uuid wd wr conns km,
      km ∈ (Coordinator.spawn_dataflow nodes uuid wd wr conns).sent → km.1 = "") ∧
    (∀ nodes uuid wd wr conns, Coordinator.hasRuntimeNode nodes = false →
      conns.contains "" = false →
      Coordinator.spawn_dataflow nodes uuid wd wr conns =
        Coordinator.SpawnOutcome.error "no daemon connection" []) := by
  constructor
  · intro nodes uuid wd wr conns km hkm
    rw [Coordinator.spawn_dataflow] at hkm
    split at hkm
    · simp [Coordinator.SpawnOutcome.sent] at hkm
    · split at hkm
      · simp [Coordinator.SpawnOutcome.sent] at hkm
      · split at hkm
        · simp [Coordinator.SpawnOutcome.sent] at hkm
          rw [hkm]
        · simp [Coordinator.SpawnOutcome.sent] at hkm
  · intro nodes uuid wd wr conns hrt hconns
    rw [Coordinator.spawn_dataflow]
    rw [hrt]
    simp only [Bool.false_and, if_false]
    have hsome := collectCustomNodes_isSome_of_no_runtime wd nodes hrt
    cases hc : Coordinator.collectCustomNodes wd nodes with
    | none => rw [hc] at hsome; simp at hsome
    | some m =>
      have hmem : "" ∉ conns := by simpa using hconns
      simp [hmem]

/-- On an empty ledger every acknowledgment-phase operation is a no-op:
acknowledgments fail with UnknownRegion and force_release finds nothing,
so nothing is ever released. -/
theorem runAcks_nil_ledger (ops : List Ledger.AckOp) :
    Ledger.runAcks [] ops = ([], []) := by
  induction ops with
  | nil => rfl
  | cons op ops ih =>
    cases op with
    | ack n rid =>
      simp [Ledger.runAcks, Ledger.stepAck, Ledger.acknowledge, Ledger.findRegion, ih]
    | forceRelease n =>
      simp [Ledger.runAcks, Ledger.stepAck, Ledger.force_release, ih]

/-- Splitting a not-covered-by filter at a cons of the covered list. -/
theorem filter_notMem_cons (S cov : List Nat) (n : Nat) :
    S.filter (fun c => decide (c ∉ n :: cov)) =
      (S.filter fun m => decide (m ≠ n)).filter fun c => decide (c ∉ cov) := by
  rw [List.filter_filter]
  apply List.filter_congr
  intro c _
  simp [List.mem_cons, not_or, Bool.and_comm]

/-- Invariant of the acknowledgment phase: running any operation sequence
on a ledger holding one in-flight region leaves either that region with
exactly the consumers not yet covered still pending and nothing released,
or, once every consumer is covered, the empty ledger with the region
released exactly once. -/
theorem runAcks_inFlight (id : Ledger.RegionId) (ops : List Ledger.AckOp) :
    ∀ S : List Ledger.LNodeId, S ≠ [] →
    Ledger.runAcks [(id, Ledger.RegionState.inFlight S)] ops =
      if (S.filter fun c => decide (c ∉ Ledger.coveredNodes id ops)) = [] then
        ([], [id])
      else
        ([(id, Ledger.RegionState.inFlight
            (S.filter fun c => decide (c ∉ Ledger.coveredNodes id ops)))], []) := by
  induction ops with
  | nil =>
    intro S hS
    have hfil : (S.filter fun c => decide (c ∉ Ledger.coveredNodes id [])) = S := by
      apply List.filter_eq_self.mpr
      intro a _
      simp [Ledger.coveredNodes]
    rw [hfil, if_neg hS]
    rfl
  | cons op ops ih =>
    intro S hS
    cases op with
    | ack n rid =>
      by_cases hrid : rid = id
      · subst hrid
        have hfind : Ledger.findRegion [(rid, Ledger.RegionState.inFlight S)] rid =
            some (Ledger.RegionState.inFlight S) := by
          rw [Ledger.findRegion, if_pos rfl]
        have hcov : Ledger.coveredNodes rid (Ledger.AckOp.ack n rid :: ops) =
            n :: Ledger.coveredNodes rid ops := by
          rw [Ledger.coveredNodes]
          simp
        rw [hcov, filter_notMem_cons]
        by_cases hp : (S.filter fun m => decide (m ≠ n)) = []
        · have hstep : Ledger.stepAck [(rid, Ledger.RegionState.inFlight S)]
              (Ledger.AckOp.ack n rid) = ([], [rid]) := by
            rw [Ledger.stepAck, Ledger.acknowledge, hfind]
            simp only [hp, if_pos rfl]
            simp [Ledger.removeRegion]
          rw [hp]
          simp only [List.filter_nil, if_pos rfl]
          simp only [Ledger.runAcks]
          rw [hstep, runAcks_nil_ledger]
          rfl
        · have hstep : Ledger.stepAck [(rid, Ledger.RegionState.inFlight S)]
              (Ledger.AckOp.ack n rid) =
              ([(rid, Ledger.RegionState.inFlight
                (S.filter fun m => decide (m ≠ n)))], []) := by
            rw [Ledger.stepAck, Ledger.acknowledge, hfind]
            simp only [if_neg hp]
            simp [Ledger.setRegion]
          simp only [Ledger.runAcks]
          rw [hstep, ih (S.filter fun m => decide (m ≠ n)) hp]
          split <;> simp
      · have hne : ¬ (id = rid) := fun h => hrid h.symm
        have hfind : Ledger.findRegion [(id, Ledger.RegionState.inFlight S)] rid =
            none := by
          rw [Ledger.findRegion, if_neg hne, Ledger.findRegion]
        have hstep : Ledger.stepAck [(id, Ledger.RegionState.inFlight S)]
            (Ledger.AckOp.ack n rid) = ([(id, Ledger.RegionState.inFlight S)], []) := by
          rw [Ledger.stepAck, Ledger.acknowledge, hfind]
        have hcov : Ledger.coveredNodes id (Ledger.AckOp.ack n rid :: ops) =
            Ledger.coveredNodes id ops := by
          rw [Ledger.coveredNodes]
          simp [hrid]
        rw [hcov]
        simp only [Ledger.runAcks]
        rw [hstep, ih S hS]
        split <;> simp
    | forceRelease n =>
      have hcov : Ledger.coveredNodes id (Ledger.AckOp.forceRelease n :: ops) =
          n :: Ledger.coveredNodes id ops := rfl
      rw [hcov, filter_notMem_cons]
      by_cases hp : (S.filter fun m => decide (m ≠ n)) = []
      · have hstep : Ledger.stepAck [(id, Ledger.RegionState.inFlight S)]
            (Ledger.AckOp.forceRelease n) = ([], [id]) := by
          rw [Ledger.stepAck, Ledger.force_release]
          simp only [hp, if_pos rfl]
          rfl
        rw [hp]
        simp only [List.filter_nil, if_pos rfl]
        simp only [Ledger.runAcks]
        rw [hstep, runAcks_nil_ledger]
        rfl
      · have hstep : Ledger.stepAck [(id, Ledger.RegionState.inFlight S)]
            (Ledger.AckOp.forceRelease n) =
            ([(id, Ledger.RegionState.inFlight
              (S.filter fun m => decide (m ≠ n)))], []) := by
          rw [Ledger.stepAck, Ledger.force_release]
          simp only [if_neg hp]
          rfl
        simp only [Ledger.runAcks]
        rw [hstep, ih (S.filter fun m => decide (m ≠ n)) hp]
        split <;> simp

/-- C1: for every allocate-publish-acknowledgments sequence on the
Drop-Token Ledger, publish on the allocated region succeeds and fixes the
consumer set; across any following sequence of acknowledgments and
force_releases the region is released at most once, and exactly once
precisely when every published consumer has acknowledged or been covered
by a force_release; moreover whenever a prefix of the sequence has
released the region, all consumers were covered within that prefix and
every later acknowledge or publish on the same region id fails with
UnknownRegion, so a double release is impossible. -/
theorem ledger_release_exactly_once (id : Ledger.RegionId) (size : Nat)
    (consumers : List Ledger.LNodeId) (ops : List Ledger.AckOp)
    (hne : consumers ≠ []) :
    Ledger.publish (Ledger.allocate [] id size) id consumers =
      Except.ok [(id, Ledger.RegionState.inFlight consumers)] ∧
    (Ledger.runAcks [(id, Ledger.RegionState.inFlight consumers)] ops).2.count id ≤ 1 ∧
    ((Ledger.runAcks [(id, Ledger.RegionState.inFlight consumers)] ops).2.count id = 1 ↔
      ∀ c ∈ consumers, c ∈ Ledger.coveredNodes id ops) ∧
    (∀ p q, ops = p ++ q →
      id ∈ (Ledger.runAcks [(id, Ledger.RegionState.inFlight consumers)] p).2 →
      (∀ c ∈ consumers, c ∈ Ledger.coveredNodes id p) ∧
      (∀ m, Ledger.acknowledge
          (Ledger.runAcks [(id, Ledger.RegionState.inFlight consumers)] p).1 m id =
        Except.error Ledger.LedgerError.UnknownRegion) ∧
      (∀ cs, Ledger.publish
          (Ledger.runAcks [(id, Ledger.RegionState.inFlight consumers)] p).1 id cs =
        Except.error Ledger.LedgerError.UnknownRegion)) := by
  refine ⟨?_, ?_, ?_, ?_⟩
  · rw [Ledger.allocate, Ledger.publish, Ledger.findRegion, if_pos rfl]
    simp [Ledger.setRegion]
  · rw [runAcks_inFlight id ops consumers hne]
    split <;> simp
  · rw [runAcks_inFlight id ops consumers hne]
    by_cases hC : (consumers.filter fun c =>
        decide (c ∉ Ledger.coveredNodes id ops)) = []
    · rw [if_pos hC]
      simp only [List.filter_eq_nil_iff, decide_eq_true_eq, not_not] at hC
      simpa using hC
    · rw [if_neg hC]
      simp only [List.filter_eq_nil_iff, decide_eq_true_eq, not_not] at hC
      simpa using hC
  · intro p q hpq hmem
    have Hp := runAcks_inFlight id p consumers hne
    by_cases hCp : (consumers.filter fun c =>
        decide (c ∉ Ledger.coveredNodes id p)) = []
    · rw [if_pos hCp] at Hp
      refine ⟨?_, ?_, ?_⟩
      · simp only [List.filter_eq_nil_iff, decide_eq_true_eq, not_not] at hCp
        exact hCp
      · intro m
        rw [Hp, Ledger.acknowledge, Ledger.findRegion]
      · intro cs
        rw [Hp, Ledger.publish, Ledger.findRegion]
    · rw [if_neg hCp] at Hp
      rw [Hp] at hmem
      simp at hmem

/-- Witness for C1 at a concrete run: region 0 published to consumers 1
and 2 is released exactly once after both acknowledge. -/
theorem ledger_release_exactly_once_witness :
    (Ledger.runAcks [(0, Ledger.RegionState.inFlight [1, 2])]
      [Ledger.AckOp.ack 1 0, Ledger.AckOp.ack 2 0]).2.count 0 = 1 := by
  have h := ledger_release_exactly_once 0 1024 [1, 2]
    [Ledger.AckOp.ack 1 0, Ledger.AckOp.ack 2 0] (by decide)
  exact h.2.2.1.mpr (by decide)

end Dora
